import Mathlib

/-!
Shallow embedding of the swap-execution core of the `shardeum-globalswap/interface`
repository (files `src/utils/index.ts` and the swap-callback hook module), together
with proofs that settle the frozen claims about its specification.

Conventions of the embedding:
* machine integers and JS/ethers `BigNumber` values are modelled as `Nat`/`Int`
  (ethers `BigNumber` is arbitrary-precision, so no wraparound is introduced);
* keccak/sha3 hashing and ABI encoding are external primitives supplied by the
  runtime libraries (`ethers`, `web3`); they are modelled as fields of an explicit
  `HashEnv` record, so every theorem holds for an arbitrary interpretation of the
  hash functions;
* fallible code paths are modelled with `Option`/`Except`;
* JS promise fan-out (`Promise.all`) preserves list order, so the concurrent
  estimation step is modelled as an order-preserving `List.map`.
-/

namespace GlobalSwap

/-- Function `calculateGasMargin` from `src/utils/index.ts`:
`value.mul(BigNumber.from(10000).add(BigNumber.from(1000))).div(BigNumber.from(10000))`.
`BigNumber.div` truncates, which on non-negative values is floor division. -/
def calculateGasMargin (value : Nat) : Nat :=
  value * (10000 + 1000) / 10000

/-- Function `calculateSlippageAmount` from `src/utils/index.ts`: throws on
`slippage < 0 || slippage > 10000`, otherwise returns the pair
`[value*(10000-slippage)/10000, value*(10000+slippage)/10000]` with JSBI
(arbitrary-precision) truncating division. -/
def calculateSlippageAmount (value : Nat) (slippage : Int) : Except String (Nat × Nat) :=
  if slippage < 0 ∨ slippage > 10000 then
    Except.error "Unexpected slippage value"
  else
    Except.ok
      (value * ((10000 : Int) - slippage).toNat / 10000,
       value * ((10000 : Int) + slippage).toNat / 10000)

/-- JS `<` on strings: lexicographic comparison of code units.  Modelled on the
code-point lists of the two strings (identical for the BMP strings the code
compares, which are ASCII hex addresses). -/
def jsLtChars : List Char → List Char → Bool
  | [], [] => false
  | [], _ :: _ => true
  | _ :: _, [] => false
  | a :: as, b :: bs =>
    if a.toNat < b.toNat then true
    else if b.toNat < a.toNat then false
    else jsLtChars as bs

/-- JS string comparison `tokenA < tokenB` used in `getPair`. -/
def jsLt (a b : String) : Bool :=
  jsLtChars a.data b.data

/-- JS `s.split(pattern).join('')` — removes every non-overlapping occurrence of
`pattern`, scanning left to right.  Written with structural fuel so that the
kernel can evaluate it on concrete inputs. -/
def stripMatchesAux (pattern : List Char) : Nat → List Char → List Char
  | 0, s => s
  | _ + 1, [] => []
  | fuel + 1, c :: rest =>
    if pattern.isPrefixOf (c :: rest) then
      stripMatchesAux pattern fuel ((c :: rest).drop pattern.length)
    else
      c :: stripMatchesAux pattern fuel rest

/-- The operation `s.split(pattern).join('')` on strings. -/
def stripMatches (pattern s : String) : String :=
  String.mk (stripMatchesAux pattern.data s.data.length s.data)

/-- The literal `'0'.repeat(24)` used in `getPair` to strip ABI padding. -/
def zeros24 : String :=
  "000000000000000000000000"

/-- External hashing/encoding primitives used by the slot/address hasher.  The
embedding is parametric in these: every theorem below holds for any
interpretation.
* `keccakUintUint a b` models `ethers.utils.solidityKeccak256(['uint','uint'], [a, b])`;
* `keccakUint s` models the numeric value of `ethers.utils.solidityKeccak256(['uint'], [s])`;
* `toHexString n` models `ethers.BigNumber.from(n).toHexString()`;
* `encodeAddressPair` / `encodeAddressBytes32` model
  `web3.eth.abi.encodeParameters(['address','address'], ...)` resp.
  `(['address','bytes32'], ...)`;
* `soliditySha3` / `soliditySha3two` model `web3.utils.soliditySha3` with one
  resp. two arguments. -/
structure HashEnv where
  keccakUintUint : String → String → String
  keccakUint : String → Nat
  toHexString : Nat → String
  encodeAddressPair : String → String → String
  encodeAddressBytes32 : String → String → String
  soliditySha3 : String → String
  soliditySha3two : String → String → String

/-- Function `getNestedStorageKey` from `src/utils/index.ts`:
`solidityKeccak256(['uint','uint'], [key2, solidityKeccak256(['uint','uint'], [key1, slotOfMap])])`. -/
def getNestedStorageKey (H : HashEnv) (key1 key2 slotOfMap : String) : String :=
  let firstLevelKey := H.keccakUintUint key1 slotOfMap
  H.keccakUintUint key2 firstLevelKey

/-- Function `getArrayItemKey` from `src/utils/index.ts`, at the level of numeric values:
`slot := solidityKeccak256(['uint'], [slotOfArray])`; when `index > 0` the code
computes `BigNumber.from(slot).add(index)` (arbitrary-precision addition — ethers
`BigNumber` does not reduce modulo 2^256) and renders it with `toHexString`;
when `index = 0` it returns the hash itself. -/
def getArrayItemKey (keccakUint : String → Nat) (index : Nat) (slotOfArray : String) : Nat :=
  let slot := keccakUint slotOfArray
  if index > 0 then slot + index else slot

/-- Function `getPair` from `src/utils/index.ts`: sorts the two tokens with JS `<`,
ABI-encodes the sorted pair, strips the 24-zero padding runs, hashes the result
as the CREATE2 salt, ABI-encodes `(factory, salt)`, strips padding and the `0x`
prefix, guards on a falsy `codeHash` (the only falsy string is `""`), hashes
`'0xff' ++ encoded` together with `codeHash` and keeps all but the first 26
characters (the low-order 20 bytes) as the pair address. -/
def getPair (H : HashEnv) (tokenA tokenB factory codeHash : String) : Option String :=
  let tokens := if jsLt tokenA tokenB then (tokenA, tokenB) else (tokenB, tokenA)
  let abiEncoded1 := stripMatches zeros24 (H.encodeAddressPair tokens.1 tokens.2)
  let salt := H.soliditySha3 abiEncoded1
  let abiEncoded2 := (stripMatches zeros24 (H.encodeAddressBytes32 factory salt)).drop 2
  if codeHash = "" then none
  else
    let pairAddress := (H.soliditySha3two ("0xff" ++ abiEncoded2) codeHash).drop 26
    if pairAddress = "" then none else some ("0x" ++ pairAddress)

/-- The `ammAddresses` constants imported from `src/constants` (the concrete
values live in a file outside the provided sources, so they stay abstract). -/
structure AmmAddresses where
  wethAddress : String
  wethCodeHash : String
  daiAddress : String
  daiCodeHash : String
  codeHash : String

/-- The module-level `codeHashMap` after its two startup `set` calls
(`set(wethAddress, wethCodeHash); set(daiAddress, daiCodeHash)`); a later `set`
on the same key overwrites, hence the `daiAddress` test comes first. -/
def codeHashMapGet (amm : AmmAddresses) (addr : String) : Option String :=
  if addr = amm.daiAddress then some amm.daiCodeHash
  else if addr = amm.wethAddress then some amm.wethCodeHash
  else none

/-- Function `getContractCodeHash` from `src/utils/index.ts`: returns the cached hash when
`codeHashMap.has(contractAddress)`; the on-demand fetch in the `else` branch is
commented out in the source, so the function falls through and returns
`undefined` (`none`). -/
def getContractCodeHash (amm : AmmAddresses) (contractAddress : String) : Option String :=
  if (codeHashMapGet amm contractAddress).isSome then
    codeHashMapGet amm contractAddress
  else
    none

/-- The `tradeAddresses` argument of `generateAccessList`
(`{ routerAddress, factoryAddress, address1, address2, from }`). -/
structure TradeAddresses where
  routerAddress : String
  factoryAddress : String
  address1 : String
  address2 : String
  fromAddress : String

/-- One entry of the generated access list: a contract address paired with its
ordered storage keys.  A key slot that the source fills from an `Option`-valued
lookup (`codeHashMap.get`) is an `Option String` (`none` models `undefined`). -/
structure AccessListEntry where
  address : String
  storageKeys : List (Option String)

/-- Function `generateAccessList` from `src/utils/index.ts`.  The source first derives the
pair address with `getPair`; when that yields `null`/`undefined`, the subsequent
`solidityKeccak256(['uint','uint'], [pairAddress, '0x3'])` calls in the token
entries raise, so the async function rejects — modelled as `none`.  Otherwise it
returns the four entries (pair, address1, address2, factory) exactly as listed
in the source, with `allPairLength` fixed at `1` (the `getAllPairsLength` call
is commented out). -/
def generateAccessList (H : HashEnv) (amm : AmmAddresses) (t : TradeAddresses) :
    Option (List AccessListEntry) :=
  let account := t.fromAddress
  match getPair H t.address1 t.address2 t.factoryAddress amm.codeHash with
  | none => none
  | some pairAddress =>
    let zeroAddress := "0x" ++ String.mk (List.replicate 40 '0')
    let balanceMapSlot := "0x1"
    let allPairLength := 1
    let senderBalanceKey := H.keccakUintUint account balanceMapSlot
    let pairBalanceKey := H.keccakUintUint zeroAddress balanceMapSlot
    let allowKeyOfSender := H.keccakUintUint account "0x1"
    let allowKeyOfSenderForPair := H.keccakUintUint t.routerAddress allowKeyOfSender
    let token01Key := getNestedStorageKey H t.address1 t.address2 "0x2"
    let token10Key := getNestedStorageKey H t.address2 t.address1 "0x2"
    let allPairKey := H.toHexString (getArrayItemKey H.keccakUint allPairLength "0x3")
    some
      [ { address := pairAddress
          storageKeys :=
            [ some "0x0000000000000000000000000000000000000000000000000000000000000000",
              some "0x0000000000000000000000000000000000000000000000000000000000000003",
              some "0x0000000000000000000000000000000000000000000000000000000000000005",
              some "0x0000000000000000000000000000000000000000000000000000000000000006",
              some "0x0000000000000000000000000000000000000000000000000000000000000007",
              some "0x0000000000000000000000000000000000000000000000000000000000000008",
              some "0x0000000000000000000000000000000000000000000000000000000000000009",
              some "0x000000000000000000000000000000000000000000000000000000000000000a",
              some "0x000000000000000000000000000000000000000000000000000000000000000c",
              some senderBalanceKey,
              some pairBalanceKey,
              some "0xb2b81c15af25defa7f931953dc35a7a411b46f9e890702354a2899d421608c23" ] },
        { address := t.address1
          storageKeys :=
            [ some (H.keccakUintUint t.routerAddress "0x3"),
              some (H.keccakUintUint pairAddress "0x3"),
              some allowKeyOfSenderForPair,
              some (H.keccakUintUint account "0x0"),
              some (H.keccakUintUint pairAddress "0x0"),
              codeHashMapGet amm t.address1 ] },
        { address := t.address2
          storageKeys :=
            [ some (H.keccakUintUint t.routerAddress "0x3"),
              some (H.keccakUintUint pairAddress "0x3"),
              some allowKeyOfSenderForPair,
              some (H.keccakUintUint account "0x0"),
              some (H.keccakUintUint pairAddress "0x0"),
              codeHashMapGet amm t.address2 ] },
        { address := t.factoryAddress
          storageKeys :=
            [ some "0x0000000000000000000000000000000000000000000000000000000000000003",
              some token01Key,
              some token10Key,
              some allPairKey,
              some "0x3ceed391ae304e8dc31737fba00513c69846aba35d763fe6a069afbbbd727ca3" ] } ]

/-- Record `SwapParameters` produced by `Router.swapCallParameters` (uniswap sdk):
a method name, encoded arguments, and the native value as a hex string. -/
structure SwapParameters where
  methodName : String
  args : List String
  value : String
deriving DecidableEq

/-- Record `SwapCall` from the swap hook module: a router contract paired with call
parameters.  The contract object is identified by its address. -/
structure SwapCall where
  contract : String
  parameters : SwapParameters
deriving DecidableEq

/-- Union `EstimatedSwapCall = SuccessfulCall | FailedCall`: the estimation outcome for
one candidate, discriminated in the source by the presence of a `gasEstimate`
resp. `error` property. -/
inductive EstimatedSwapCall where
  | successful (call : SwapCall) (gasEstimate : Nat)
  | failed (call : SwapCall) (error : String)
deriving DecidableEq

/-- The `'gasEstimate' in el` test of the source. -/
def hasGasEstimate : EstimatedSwapCall → Bool
  | .successful _ _ => true
  | .failed _ _ => false

/-- The `'error' in call` test of the source. -/
def hasError : EstimatedSwapCall → Bool
  | .successful _ _ => false
  | .failed _ _ => true

/-- The `error` property of a `FailedCall` (empty for a `SuccessfulCall`, which
the source never reads). -/
def errorMessage : EstimatedSwapCall → String
  | .successful _ _ => ""
  | .failed _ e => e

/-- Enum `TradeType` from the uniswap sdk: exact-input vs exact-output trades. -/
inductive TradeType where
  | exactInput
  | exactOutput
deriving DecidableEq

/-- The externally supplied trade object, exposing the trade type the hook
branches on (the amounts are consumed only by the opaque
`Router.swapCallParameters`). -/
structure Trade where
  tradeType : TradeType

/-- The options record passed to `Router.swapCallParameters`:
`{ feeOnTransfer, allowedSlippage: new Percent(allowedSlippage, BIPS_BASE), recipient, deadline }`.
The `Percent` is kept as its numerator/denominator pair. -/
structure SwapCallOptions where
  feeOnTransfer : Bool
  allowedSlippage : Nat × Nat
  recipient : String
  deadline : Nat

/-- Constant `BIPS_BASE` from `src/constants` (`JSBI.BigInt(10000)`). -/
def BIPS_BASE : Nat := 10000

/-- Function `useSwapCallArguments` from the swap hook module.  `swapCallParameters`
stands for the external `Router.swapCallParameters`; `routerContract` for the
contract returned by `getRouterContract` (whose `!contract` guard can never
fire: the constructor either throws or yields an object).  Missing
`trade`/`recipient`/`library`/`account`/`chainId`/`deadline` short-circuit to
the empty list; otherwise the plain (`feeOnTransfer: false`) candidate is
pushed first and, for exact-input trades only, the fee-on-transfer variant is
pushed second. -/
def useSwapCallArguments
    (swapCallParameters : Trade → SwapCallOptions → SwapParameters)
    (routerContract : String)
    (trade : Option Trade) (allowedSlippage : Nat)
    (recipient : Option String) (library : Option String) (account : Option String)
    (chainId : Option Nat) (deadline : Option Nat) : List SwapCall :=
  match trade, recipient, library, account, chainId, deadline with
  | some trade, some recipient, some _, some _, some _, some deadline =>
    let plain := swapCallParameters trade
      { feeOnTransfer := false
        allowedSlippage := (allowedSlippage, BIPS_BASE)
        recipient := recipient
        deadline := deadline }
    let swapMethods :=
      if trade.tradeType = TradeType.exactInput then
        [plain,
         swapCallParameters trade
           { feeOnTransfer := true
             allowedSlippage := (allowedSlippage, BIPS_BASE)
             recipient := recipient
             deadline := deadline }]
      else
        [plain]
    swapMethods.map fun parameters => { contract := routerContract, parameters := parameters }
  | _, _, _, _, _, _ => []

/-- Result of the read-only `contract.callStatic[methodName](...args, options)`
simulation: it either resolves or rejects with an error carrying a `reason`. -/
inductive CallStaticResult where
  | resolved (result : String)
  | rejected (reason : String)

/-- The `switch (callError.reason)` classification inside `onSwap`: the two
exact router revert strings map to the slippage message, anything else to the
generic message embedding the raw reason. -/
def swapErrorMessage (reason : String) : String :=
  if reason = "SwapRouterV2: INSUFFICIENT_OUTPUT_AMOUNT" ∨
     reason = "SwapRouterV2: EXCESSIVE_INPUT_AMOUNT" then
    "This transaction will not succeed either due to price movement or fee on transfer. Try increasing your slippage tolerance."
  else
    "The transaction cannot succeed due to error: " ++ reason ++
      ". This is probably an issue with one of the tokens you are swapping."

/-- The per-candidate estimation step of `onSwap`: try
`contract.estimateGas[methodName](...args, options)`; on failure run the
read-only simulation with identical arguments and classify.  A simulation that
unexpectedly resolves yields the generic retry message; a rejection is
classified by `swapErrorMessage`. -/
def estimateSwapCall (estimateGas : SwapCall → Option Nat)
    (callStatic : SwapCall → CallStaticResult) (call : SwapCall) : EstimatedSwapCall :=
  match estimateGas call with
  | some gasEstimate => .successful call gasEstimate
  | none =>
    match callStatic call with
    | .resolved _ => .failed call "Unexpected issue with estimating the gas. Please try again."
    | .rejected reason => .failed call (swapErrorMessage reason)

/-- The `Promise.all` fan-out of `onSwap`: estimates every candidate, preserving
candidate order. -/
def estimateSwapCalls (estimateGas : SwapCall → Option Nat)
    (callStatic : SwapCall → CallStaticResult) (swapCalls : List SwapCall) :
    List EstimatedSwapCall :=
  swapCalls.map (estimateSwapCall estimateGas callStatic)

/-- The predicate of the `estimatedCalls.find(...)` call in `onSwap`:
`'gasEstimate' in el && (ix === list.length - 1 || 'gasEstimate' in list[ix + 1])`. -/
def selectorPredicate (estimatedCalls : List EstimatedSwapCall) (ix : Nat) : Bool :=
  match estimatedCalls.get? ix with
  | some el =>
    hasGasEstimate el &&
      (ix == estimatedCalls.length - 1 ||
        (match estimatedCalls.get? (ix + 1) with
         | some nxt => hasGasEstimate nxt
         | none => false))
  | none => false

/-- The index selected by `estimatedCalls.find(...)`: JS `Array.find` scans the
indices `0, …, length-1` in order and stops at the first hit. -/
def successfulEstimationIdx (estimatedCalls : List EstimatedSwapCall) : Option Nat :=
  (List.range estimatedCalls.length).find? (selectorPredicate estimatedCalls)

/-- Value `successfulEstimation` — the element JS `Array.find` returns. -/
def successfulEstimation (estimatedCalls : List EstimatedSwapCall) :
    Option EstimatedSwapCall :=
  (successfulEstimationIdx estimatedCalls).bind estimatedCalls.get?

/-- The selection step of `onSwap`: on a hit, the successful call is used; on a
miss the hook throws the `error` of the last element of
`estimatedCalls.filter('error' in call)` when that filter is non-empty, and the
support message otherwise. -/
def selectSwapCall (estimatedCalls : List EstimatedSwapCall) :
    Except String EstimatedSwapCall :=
  match successfulEstimation estimatedCalls with
  | some successfulEstimation => Except.ok successfulEstimation
  | none =>
    let errorCalls := estimatedCalls.filter hasError
    match errorCalls.getLast? with
    | some c => Except.error (errorMessage c)
    | none => Except.error "Unexpected error. Please contact support: none of the calls threw an error"

/-- The transaction-request fields relevant to assembly and submission.  The
response of `populateTransaction` carries the fields passed as overrides; the
later testMode block spreads it and overwrites the network fields. -/
structure TxRequest where
  value : Nat
  gasLimit : Nat
  chainId : Nat
  gasPrice : Nat
  nonce : Nat
  txType : Nat

/-- The `populateTransaction[methodName](...args, { gasLimit: calculateGasMargin(gasEstimate), ... })`
call of `onSwap`: the returned unsigned request carries the overridden gas
limit and the candidate value (fields the response does not carry are zero). -/
def populateSwapTransaction (gasEstimate : Nat) (value : Nat) : TxRequest :=
  { value := value
    gasLimit := calculateGasMargin gasEstimate
    chainId := 0
    gasPrice := 0
    nonce := 0
    txType := 0 }

/-- The transaction actually serialized, signed and broadcast by the (always
enabled, `testMode = true`) submission block of `onSwap`:
`{ ...response, value, chainId: 8080, gasPrice: parseEther('0.000000011'), gasLimit: 300000, nonce, type: 1 }`.
`parseEther('0.000000011')` is 11000000000 wei. -/
def buildSubmittedTransaction (response : TxRequest) (nonce : Nat) : TxRequest :=
  { response with
    chainId := 8080
    gasPrice := 11000000000
    gasLimit := 300000
    nonce := nonce
    txType := 1 }

/-- The property the spec's selection rule asks of index `i` of the outcome
list: `outcome[i]` is a success and either `i` is the last index or
`outcome[i+1]` is also a success. -/
def SelectedIndexSpec (l : List EstimatedSwapCall) (i : Nat) : Prop :=
  (∃ el, l.get? i = some el ∧ hasGasEstimate el = true) ∧
  (i = l.length - 1 ∨ ∃ nxt, l.get? (i + 1) = some nxt ∧ hasGasEstimate nxt = true)

/-- A concrete swap call used to instantiate outcome lists in examples and
witnesses. -/
def dummyCall : SwapCall :=
  { contract := "router"
    parameters := { methodName := "swapExactTokensForTokens", args := [], value := "0x0" } }

/-- A concrete interpretation of the hashing primitives, used to instantiate
theorems with hypotheses on concrete inputs. -/
def concreteHashEnv : HashEnv :=
  { keccakUintUint := fun a b => "K" ++ a ++ "." ++ b
    keccakUint := fun _ => 7
    toHexString := fun n => "0x" ++ toString n
    encodeAddressPair := fun a b => a ++ b
    encodeAddressBytes32 := fun a b => a ++ b
    soliditySha3 := fun s => s
    soliditySha3two := fun a b => a ++ b }

/-- Concrete `ammAddresses` constants for witnesses. -/
def concreteAmm : AmmAddresses :=
  { wethAddress := "0xweth"
    wethCodeHash := "0xwethhash"
    daiAddress := "0xdai"
    daiCodeHash := "0xdaihash"
    codeHash := "0x0123456789012345678901234567890123456789012345678901234567890123" }

/-- Concrete trade addresses for witnesses. -/
def concreteTradeAddresses : TradeAddresses :=
  { routerAddress := "0xr"
    factoryAddress := "0xf"
    address1 := "0xa1"
    address2 := "0xa2"
    fromAddress := "0xs" }

set_option maxRecDepth 16000

/-- The boolean predicate scanned by `Array.find` agrees with the spec's
selection property. -/
theorem selectorPredicate_eq_true_iff (l : List EstimatedSwapCall) (i : Nat) :
    selectorPredicate l i = true ↔ SelectedIndexSpec l i := by
  unfold selectorPredicate SelectedIndexSpec
  cases h : l.get? i with
  | none => simp
  | some el =>
    cases h2 : l.get? (i + 1) with
    | none =>
      simp only [Bool.and_eq_true, Bool.or_eq_true, beq_iff_eq, Option.some.injEq]
      constructor
      · rintro ⟨hel, hlast | hfalse⟩
        · exact ⟨⟨el, rfl, hel⟩, Or.inl hlast⟩
        · cases hfalse
      · rintro ⟨⟨el', hel', hgas⟩, hlast | ⟨nxt, hnxt, -⟩⟩
        · cases hel'; exact ⟨hgas, Or.inl hlast⟩
        · cases hnxt
    | some nxt =>
      simp only [Bool.and_eq_true, Bool.or_eq_true, beq_iff_eq, Option.some.injEq]
      constructor
      · rintro ⟨hel, hlast | hgasnxt⟩
        · exact ⟨⟨el, rfl, hel⟩, Or.inl hlast⟩
        · exact ⟨⟨el, rfl, hel⟩, Or.inr ⟨nxt, rfl, hgasnxt⟩⟩
      · rintro ⟨⟨el', hel', hgas⟩, hlast | ⟨nxt', hnxt', hgasnxt⟩⟩
        · cases hel'; exact ⟨hgas, Or.inl hlast⟩
        · cases hel'; cases hnxt'; exact ⟨hgas, Or.inr hgasnxt⟩

/-- C1: the candidate selector scans outcomes in candidate order and selects the
first index `i` such that `outcome[i]` is a `Success` and either `i` is the last
index or `outcome[i+1]` is also a `Success`; on `[Success 100, Success 120]` it
selects index 0, on `[Failure, Success 120]` index 1, and on
`[Success 100, Failure]` no candidate at all. -/
theorem selector_first_success_pair :
    (∀ (l : List EstimatedSwapCall) (i : Nat),
        successfulEstimationIdx l = some i ↔
          SelectedIndexSpec l i ∧ ∀ j < i, ¬ SelectedIndexSpec l j) ∧
    successfulEstimationIdx
      [.successful dummyCall 100, .successful dummyCall 120] = some 0 ∧
    successfulEstimationIdx
      [.failed dummyCall "diagnosed", .successful dummyCall 120] = some 1 ∧
    successfulEstimationIdx
      [.successful dummyCall 100, .failed dummyCall "diagnosed"] = none ∧
    successfulEstimation
      [.successful dummyCall 100, .failed dummyCall "diagnosed"] = none := by
  refine ⟨fun l i => ?_, by decide, by decide, by decide, by decide⟩
  rw [successfulEstimationIdx, List.find?_range_eq_some]
  constructor
  · rintro ⟨hp, hmem, hmin⟩
    refine ⟨(selectorPredicate_eq_true_iff l i).1 hp, fun j hj hspec => ?_⟩
    have hj' := hmin j hj
    rw [Bool.not_eq_true'] at hj'
    rw [(selectorPredicate_eq_true_iff l j).2 hspec] at hj'
    cases hj'
  · rintro ⟨hspec, hmin⟩
    have hi : i < l.length := by
      obtain ⟨el, hel, -⟩ := hspec.1
      obtain ⟨hlt, -⟩ := List.get?_eq_some.1 hel
      exact hlt
    refine ⟨(selectorPredicate_eq_true_iff l i).2 hspec, List.mem_range.2 hi, fun j hj => ?_⟩
    rw [Bool.not_eq_true']
    cases hb : selectorPredicate l j with
    | false => rfl
    | true => exact absurd ((selectorPredicate_eq_true_iff l j).1 hb) (hmin j hj)

/-- C2 counterexample: for the selected estimate 100000 the transaction that is
actually serialized and submitted does not carry gas limit 110000 — the
submission block overwrites the populated gas limit with the fixed literal
300000. -/
theorem submitted_gas_limit_counterexample :
    calculateGasMargin 100000 = 110000 ∧
    (populateSwapTransaction 100000 0).gasLimit = 110000 ∧
    (buildSubmittedTransaction (populateSwapTransaction 100000 0) 0).gasLimit = 300000 ∧
    (buildSubmittedTransaction (populateSwapTransaction 100000 0) 0).gasLimit ≠
      calculateGasMargin 100000 := by
  refine ⟨by decide, by decide, rfl, by decide⟩

/-- C2 (amended): for every selected estimate `e`, the gas limit passed when the
unsigned transaction is populated equals `e * 11000 / 10000` (floor) and never
under-shoots `e`, with 100000 yielding exactly 110000; the transaction that is
then serialized, signed and submitted carries the fixed gas limit 300000
instead. -/
theorem populated_gas_limit_margin :
    ∀ (gasEstimate value nonce : Nat),
      (populateSwapTransaction gasEstimate value).gasLimit = gasEstimate * 11000 / 10000 ∧
      gasEstimate ≤ (populateSwapTransaction gasEstimate value).gasLimit ∧
      (populateSwapTransaction 100000 value).gasLimit = 110000 ∧
      (buildSubmittedTransaction (populateSwapTransaction gasEstimate value) nonce).gasLimit =
        300000 := by
  intro gasEstimate value nonce
  refine ⟨rfl, ?_, rfl, rfl⟩
  show gasEstimate ≤ calculateGasMargin gasEstimate
  unfold calculateGasMargin
  have h1 : gasEstimate * 10000 ≤ gasEstimate * (10000 + 1000) :=
    Nat.mul_le_mul_left gasEstimate (by omega)
  calc gasEstimate = gasEstimate * 10000 / 10000 := by
        rw [Nat.mul_div_cancel _ (by omega : 0 < 10000)]
    _ ≤ gasEstimate * (10000 + 1000) / 10000 := Nat.div_le_div_right h1

/-- C10: `calculateSlippageAmount` throws exactly when `slippage < 0` or
`slippage > 10000`; for slippage in `[0, 10000]` it returns the floor-divided
pair, whose first component never exceeds the raw value and whose second is
never below it. -/
theorem slippage_amount_bounds :
    ∀ (value : Nat) (slippage : Int),
      ((∃ msg, calculateSlippageAmount value slippage = Except.error msg) ↔
        (slippage < 0 ∨ slippage > 10000)) ∧
      (0 ≤ slippage → slippage ≤ 10000 →
        calculateSlippageAmount value slippage =
          Except.ok
            (value * ((10000 : Int) - slippage).toNat / 10000,
             value * ((10000 : Int) + slippage).toNat / 10000) ∧
        value * ((10000 : Int) - slippage).toNat / 10000 ≤ value ∧
        value ≤ value * ((10000 : Int) + slippage).toNat / 10000) := by
  intro value slippage
  constructor
  · unfold calculateSlippageAmount
    by_cases h : slippage < 0 ∨ slippage > 10000
    · simp [h]
    · simp [h]
  · intro h0 h1
    have hrange : ¬ (slippage < 0 ∨ slippage > 10000) := by omega
    refine ⟨by simp [calculateSlippageAmount, hrange], ?_, ?_⟩
    · have hk : ((10000 : Int) - slippage).toNat ≤ 10000 := by omega
      calc value * ((10000 : Int) - slippage).toNat / 10000
          ≤ value * 10000 / 10000 := Nat.div_le_div_right (Nat.mul_le_mul_left value hk)
        _ = value := Nat.mul_div_cancel _ (by omega)
    · have hk : 10000 ≤ ((10000 : Int) + slippage).toNat := by omega
      calc value = value * 10000 / 10000 := (Nat.mul_div_cancel _ (by omega)).symm
        _ ≤ value * ((10000 : Int) + slippage).toNat / 10000 :=
            Nat.div_le_div_right (Nat.mul_le_mul_left value hk)

/-- Witness for C10 at `value = 100`, `slippage = 50`: the slippage window is
`(99, 100)`. -/
theorem slippage_amount_bounds_witness :
    calculateSlippageAmount 100 50 = Except.ok (99, 100) ∧
    (99 : Nat) ≤ 100 ∧ (100 : Nat) ≤ 100 := by
  have h := (slippage_amount_bounds 100 50).2 (by decide) (by decide)
  exact ⟨h.1, h.2.1, h.2.2⟩

/-- C3: with trade, recipient, deadline (and library, account, chain id) all
present, the encoder returns exactly 2 candidates for an exact-input trade —
the plain (`feeOnTransfer := false`) candidate first and the fee-on-transfer
variant second — and exactly 1 candidate for an exact-output trade; when any of
trade, recipient, or deadline is absent it returns the empty list. -/
theorem swap_call_arguments_candidates :
    ∀ (swapCallParameters : Trade → SwapCallOptions → SwapParameters)
      (routerContract : String) (t : Trade) (allowedSlippage : Nat)
      (recipient library account : String) (chainId deadline : Nat),
      (t.tradeType = TradeType.exactInput →
        useSwapCallArguments swapCallParameters routerContract (some t) allowedSlippage
            (some recipient) (some library) (some account) (some chainId) (some deadline) =
          [{ contract := routerContract
             parameters := swapCallParameters t
               { feeOnTransfer := false, allowedSlippage := (allowedSlippage, BIPS_BASE)
                 recipient := recipient, deadline := deadline } },
           { contract := routerContract
             parameters := swapCallParameters t
               { feeOnTransfer := true, allowedSlippage := (allowedSlippage, BIPS_BASE)
                 recipient := recipient, deadline := deadline } }]) ∧
      (t.tradeType = TradeType.exactOutput →
        useSwapCallArguments swapCallParameters routerContract (some t) allowedSlippage
            (some recipient) (some library) (some account) (some chainId) (some deadline) =
          [{ contract := routerContract
             parameters := swapCallParameters t
               { feeOnTransfer := false, allowedSlippage := (allowedSlippage, BIPS_BASE)
                 recipient := recipient, deadline := deadline } }]) ∧
      (∀ (trade : Option Trade) (recipient2 library2 account2 : Option String)
         (chainId2 deadline2 : Option Nat),
        trade = none ∨ recipient2 = none ∨ deadline2 = none →
        useSwapCallArguments swapCallParameters routerContract trade allowedSlippage
          recipient2 library2 account2 chainId2 deadline2 = []) := by
  intro scp rc t aS r lib acct cid d
  refine ⟨fun h => ?_, fun h => ?_, ?_⟩
  · simp [useSwapCallArguments, h]
  · simp [useSwapCallArguments, h]
  · intro trade r2 l2 a2 c2 d2 habs
    rcases trade with _ | t2 <;> rcases r2 with _ | r2 <;> rcases l2 with _ | l2 <;>
      rcases a2 with _ | a2 <;> rcases c2 with _ | c2 <;> rcases d2 with _ | d2 <;>
      simp_all [useSwapCallArguments]

/-- Witness for C3: a concrete exact-input trade yields exactly the two
candidates, plain first. -/
theorem swap_call_arguments_candidates_witness :
    useSwapCallArguments
        (fun _ opts => { methodName := if opts.feeOnTransfer then "fot" else "plain"
                         args := [opts.recipient], value := "0x0" })
        "router" (some { tradeType := TradeType.exactInput }) 50
        (some "recipient") (some "library") (some "account") (some 8080) (some 1700000000) =
      [{ contract := "router"
         parameters := { methodName := "plain", args := ["recipient"], value := "0x0" } },
       { contract := "router"
         parameters := { methodName := "fot", args := ["recipient"], value := "0x0" } }] := by
  have h := (swap_call_arguments_candidates
    (fun _ opts => { methodName := if opts.feeOnTransfer then "fot" else "plain"
                     args := [opts.recipient], value := "0x0" })
    "router" { tradeType := TradeType.exactInput } 50 "recipient" "library" "account"
    8080 1700000000).1 rfl
  exact h

/-- C4 counterexample: a revert reason of the form `"...: INSUFFICIENT_OUTPUT_AMOUNT"`
whose prefix is not the literal `SwapRouterV2` maps to the generic message, not
the slippage-specific one — the `switch` matches the two full strings exactly. -/
theorem revert_reason_form_counterexample :
    swapErrorMessage ("PancakeRouter" ++ ": INSUFFICIENT_OUTPUT_AMOUNT") ≠
      "This transaction will not succeed either due to price movement or fee on transfer. Try increasing your slippage tolerance." ∧
    swapErrorMessage ("PancakeRouter" ++ ": INSUFFICIENT_OUTPUT_AMOUNT") =
      "The transaction cannot succeed due to error: " ++
        ("PancakeRouter" ++ ": INSUFFICIENT_OUTPUT_AMOUNT") ++
        ". This is probably an issue with one of the tokens you are swapping." := by
  constructor
  · decide
  · decide

/-- C4 (amended): when gas estimation fails, the candidate's outcome is a
`Failure` whose message comes from the read-only simulation with identical
arguments: a simulation that unexpectedly succeeds yields the generic
"try again" estimation message; a revert reason equal to one of the two exact
strings `"SwapRouterV2: INSUFFICIENT_OUTPUT_AMOUNT"` /
`"SwapRouterV2: EXCESSIVE_INPUT_AMOUNT"` yields the slippage-specific message;
any other reason yields the generic message embedding that exact reason. -/
theorem estimation_failure_classification :
    ∀ (estimateGas : SwapCall → Option Nat) (callStatic : SwapCall → CallStaticResult)
      (call : SwapCall),
      estimateGas call = none →
      (∀ r, callStatic call = CallStaticResult.resolved r →
          estimateSwapCall estimateGas callStatic call =
            .failed call "Unexpected issue with estimating the gas. Please try again.") ∧
      (∀ reason, callStatic call = CallStaticResult.rejected reason →
          ((reason = "SwapRouterV2: INSUFFICIENT_OUTPUT_AMOUNT" ∨
            reason = "SwapRouterV2: EXCESSIVE_INPUT_AMOUNT") →
            estimateSwapCall estimateGas callStatic call =
              .failed call "This transaction will not succeed either due to price movement or fee on transfer. Try increasing your slippage tolerance.") ∧
          (reason ≠ "SwapRouterV2: INSUFFICIENT_OUTPUT_AMOUNT" →
            reason ≠ "SwapRouterV2: EXCESSIVE_INPUT_AMOUNT" →
            estimateSwapCall estimateGas callStatic call =
              .failed call ("The transaction cannot succeed due to error: " ++ reason ++
                ". This is probably an issue with one of the tokens you are swapping."))) := by
  intro estimateGas callStatic call h
  constructor
  · intro r hr
    simp [estimateSwapCall, h, hr]
  · intro reason hr
    constructor
    · intro hcase
      simp only [estimateSwapCall, h, hr, swapErrorMessage]
      rw [if_pos hcase]
    · intro h1 h2
      simp only [estimateSwapCall, h, hr, swapErrorMessage]
      rw [if_neg (by rintro (hc | hc) <;> [exact h1 hc; exact h2 hc])]

/-- Witness for C4 (amended), exercising all three branches on concrete calls. -/
theorem estimation_failure_classification_witness :
    estimateSwapCall (fun _ => none) (fun _ => CallStaticResult.resolved "0x") dummyCall =
      .failed dummyCall "Unexpected issue with estimating the gas. Please try again." ∧
    estimateSwapCall (fun _ => none)
        (fun _ => CallStaticResult.rejected "SwapRouterV2: INSUFFICIENT_OUTPUT_AMOUNT") dummyCall =
      .failed dummyCall "This transaction will not succeed either due to price movement or fee on transfer. Try increasing your slippage tolerance." ∧
    estimateSwapCall (fun _ => none) (fun _ => CallStaticResult.rejected "TransferHelper: TRANSFER_FROM_FAILED")
        dummyCall =
      .failed dummyCall ("The transaction cannot succeed due to error: " ++
        "TransferHelper: TRANSFER_FROM_FAILED" ++
        ". This is probably an issue with one of the tokens you are swapping.") := by
  refine ⟨?_, ?_, ?_⟩
  · exact (estimation_failure_classification (fun _ => none)
      (fun _ => CallStaticResult.resolved "0x") dummyCall rfl).1 "0x" rfl
  · exact ((estimation_failure_classification (fun _ => none)
      (fun _ => CallStaticResult.rejected "SwapRouterV2: INSUFFICIENT_OUTPUT_AMOUNT") dummyCall
      rfl).2 _ rfl).1 (Or.inl rfl)
  · exact ((estimation_failure_classification (fun _ => none)
      (fun _ => CallStaticResult.rejected "TransferHelper: TRANSFER_FROM_FAILED") dummyCall
      rfl).2 _ rfl).2 (by decide) (by decide)

/-- C5: whenever the pair-address derivation succeeds, the access list generator
returns exactly 4 entries, in order the pair contract, tokenA (`address1`),
tokenB (`address2`) and the factory; and, being a pure function of its inputs,
repeated invocations with identical inputs are identical. -/
theorem access_list_four_entries :
    ∀ (H : HashEnv) (amm : AmmAddresses) (t : TradeAddresses) (pa : String),
      getPair H t.address1 t.address2 t.factoryAddress amm.codeHash = some pa →
      ∃ l, generateAccessList H amm t = some l ∧
        l.length = 4 ∧
        l.map AccessListEntry.address = [pa, t.address1, t.address2, t.factoryAddress] ∧
        generateAccessList H amm t = generateAccessList H amm t := by
  intro H amm t pa h
  unfold generateAccessList
  rw [h]
  exact ⟨_, rfl, rfl, rfl, rfl⟩

/-- Witness for C5 on a concrete hash interpretation and concrete addresses. -/
theorem access_list_four_entries_witness :
    ∃ l, generateAccessList concreteHashEnv concreteAmm concreteTradeAddresses = some l ∧
      l.length = 4 ∧
      l.map AccessListEntry.address =
        ["0x12345678901234567890123456789012345678901234567890123", "0xa1", "0xa2", "0xf"] ∧
      generateAccessList concreteHashEnv concreteAmm concreteTradeAddresses =
        generateAccessList concreteHashEnv concreteAmm concreteTradeAddresses :=
  access_list_four_entries concreteHashEnv concreteAmm concreteTradeAddresses
    "0x12345678901234567890123456789012345678901234567890123" (by rfl)

/-- The head of a filtered list is the first element satisfying the predicate. -/
theorem filter_head_eq_find (p : α → Bool) (l : List α) :
    (l.filter p).head? = l.find? p := by
  induction l with
  | nil => rfl
  | cons a l ih =>
    cases h : p a <;> simp [List.filter_cons, List.find?_cons, h, ih]

/-- The last element of `l.filter p` is the first element of `l.reverse`
satisfying `p` — i.e. the last matching element in original order. -/
theorem filter_getLast_eq_reverse_find (p : α → Bool) (l : List α) :
    (l.filter p).getLast? = l.reverse.find? p := by
  rw [List.getLast?_eq_head?_reverse, ← List.filter_reverse, filter_head_eq_find]

/-- C6: when no outcome index satisfies the selection rule, selection fails by
throwing: the thrown error carries the diagnosed message of the last `Failure`
outcome in candidate order (the first failure of the reversed list) when at
least one candidate failed, and the generic internal-inconsistency message when
no candidate failed. -/
theorem selection_failure_last_error :
    ∀ (l : List EstimatedSwapCall),
      successfulEstimation l = none →
      (∀ c, l.reverse.find? hasError = some c →
          selectSwapCall l = Except.error (errorMessage c)) ∧
      ((∀ c ∈ l, hasError c = false) →
          selectSwapCall l =
            Except.error
              "Unexpected error. Please contact support: none of the calls threw an error") := by
  intro l hsel
  have hfilter : (l.filter hasError).getLast? = l.reverse.find? hasError :=
    filter_getLast_eq_reverse_find hasError l
  constructor
  · intro c hc
    simp only [selectSwapCall, hsel]
    rw [hfilter, hc]
  · intro hall
    have hnone : l.reverse.find? hasError = none :=
      List.find?_eq_none.2 fun x hx => by
        simp [hall x (List.mem_reverse.1 hx)]
    simp only [selectSwapCall, hsel]
    rw [hfilter, hnone]

/-- Witness for C6: two failed candidates — the thrown message is the second
(last) one's; and an empty outcome list yields the generic support message. -/
theorem selection_failure_last_error_witness :
    selectSwapCall [.failed dummyCall "first diagnosed", .failed dummyCall "second diagnosed"] =
      Except.error "second diagnosed" ∧
    selectSwapCall ([] : List EstimatedSwapCall) =
      Except.error "Unexpected error. Please contact support: none of the calls threw an error" := by
  constructor
  · exact (selection_failure_last_error
      [.failed dummyCall "first diagnosed", .failed dummyCall "second diagnosed"]
      (by decide)).1 (.failed dummyCall "second diagnosed") (by decide)
  · exact (selection_failure_last_error [] (by decide)).2 (by simp)

/-- A strict `jsLtChars` comparison is asymmetric. -/
theorem jsLtChars_asymm :
    ∀ as bs, jsLtChars as bs = true → jsLtChars bs as = false := by
  intro as
  induction as with
  | nil =>
    intro bs h
    cases bs with
    | nil => simp [jsLtChars] at h
    | cons b bs => simp [jsLtChars]
  | cons a as ih =>
    intro bs h
    cases bs with
    | nil => simp [jsLtChars] at h
    | cons b bs =>
      simp only [jsLtChars] at h ⊢
      by_cases h1 : a.toNat < b.toNat
      · rw [if_neg (by omega), if_pos h1]
      · by_cases h2 : b.toNat < a.toNat
        · rw [if_neg h1, if_pos h2] at h
          exact (Bool.false_ne_true h).elim
        · rw [if_neg h1, if_neg h2] at h
          rw [if_neg h2, if_neg h1]
          exact ih bs h

/-- When neither list is `jsLtChars`-below the other, they are equal. -/
theorem jsLtChars_antisymm :
    ∀ as bs, jsLtChars as bs = false → jsLtChars bs as = false → as = bs := by
  intro as
  induction as with
  | nil =>
    intro bs h1 h2
    cases bs with
    | nil => rfl
    | cons b bs => simp [jsLtChars] at h1
  | cons a as ih =>
    intro bs h1 h2
    cases bs with
    | nil => simp [jsLtChars] at h2
    | cons b bs =>
      simp only [jsLtChars] at h1 h2
      by_cases hab : a.toNat < b.toNat
      · rw [if_pos hab] at h1; cases h1
      · by_cases hba : b.toNat < a.toNat
        · rw [if_pos hba] at h2; cases h2
        · rw [if_neg hab, if_neg hba] at h1
          have h3 : a.toNat = b.toNat := by omega
          have hval : a = b := Char.ext (UInt32.toNat.inj h3)
          rw [if_neg hba, if_neg hab] at h2
          rw [hval, ih bs h1 h2]

/-- C7: the pair-address derivation is order-independent in its two token
arguments, because the two identifiers are sorted (with JS string `<`) before
encoding. -/
theorem pair_address_symmetric :
    ∀ (H : HashEnv) (tokenA tokenB factory codeHash : String),
      getPair H tokenA tokenB factory codeHash = getPair H tokenB tokenA factory codeHash := by
  intro H tokenA tokenB factory codeHash
  unfold getPair
  have hs : (if jsLt tokenA tokenB then (tokenA, tokenB) else (tokenB, tokenA)) =
      (if jsLt tokenB tokenA then (tokenB, tokenA) else (tokenA, tokenB)) := by
    cases hA : jsLt tokenA tokenB with
    | true =>
      rw [if_pos rfl]
      rw [jsLt] at hA
      have hB : jsLt tokenB tokenA = false := jsLtChars_asymm _ _ hA
      rw [hB, if_neg (by simp)]
    | false =>
      rw [if_neg (by simp)]
      cases hB : jsLt tokenB tokenA with
      | true => rw [if_pos rfl]
      | false =>
        rw [if_neg (by simp)]
        rw [jsLt] at hA hB
        have hdata : tokenA.data = tokenB.data := jsLtChars_antisymm _ _ hA hB
        have heq : tokenA = tokenB := by
          cases tokenA with
          | mk d1 =>
            cases tokenB with
            | mk d2 => exact congrArg String.mk hdata
        rw [heq]
  rw [hs]

/-- C8 counterexample: `getArrayItemKey` performs plain (unbounded) integer
addition, not unsigned 256-bit addition with wraparound: for a slot whose hash
value is `2^256 - 1` and index 1 the code yields `2^256`, while the claimed
wraparound result is 0. -/
theorem array_item_key_counterexample :
    getArrayItemKey (fun _ => 2 ^ 256 - 1) 1 "0x3" = 2 ^ 256 ∧
    ((fun _ : String => 2 ^ 256 - 1) "0x3" + 1) % 2 ^ 256 = 0 ∧
    getArrayItemKey (fun _ => 2 ^ 256 - 1) 1 "0x3" ≠
      ((fun _ : String => 2 ^ 256 - 1) "0x3" + 1) % 2 ^ 256 := by
  have hp : (0 : Nat) < 2 ^ 256 := Nat.two_pow_pos 256
  have h1 : (2 ^ 256 - 1 : Nat) + 1 = 2 ^ 256 := by omega
  refine ⟨?_, ?_, ?_⟩
  · show (2 ^ 256 - 1 : Nat) + 1 = 2 ^ 256
    exact h1
  · show ((2 ^ 256 - 1 : Nat) + 1) % 2 ^ 256 = 0
    rw [h1, Nat.mod_self]
  · show (2 ^ 256 - 1 : Nat) + 1 ≠ ((2 ^ 256 - 1 : Nat) + 1) % 2 ^ 256
    rw [h1, Nat.mod_self]
    exact hp.ne'

/-- C8 (amended): `getArrayItemKey` computes `hash(s) + n` as plain
arbitrary-precision addition (no 256-bit reduction — it coincides with the
claimed wraparound value only while `hash(s) + n < 2^256`); for `n = 0` the
result is exactly `hash(s)`. -/
theorem array_item_key_plain_addition :
    ∀ (keccakUint : String → Nat) (index : Nat) (slotOfArray : String),
      getArrayItemKey keccakUint index slotOfArray = keccakUint slotOfArray + index ∧
      getArrayItemKey keccakUint 0 slotOfArray = keccakUint slotOfArray := by
  intro keccakUint index slotOfArray
  constructor
  · unfold getArrayItemKey
    cases index with
    | zero => simp
    | succ n => simp
  · rfl

/-- C9 counterexample: the code-hash cache performs no on-demand fetch — a
lookup of a token identifier that is not preloaded at startup returns nothing
(the read-through branch is commented out in the source). -/
theorem code_hash_cache_counterexample :
    ("0xother" ≠ concreteAmm.wethAddress) ∧
    ("0xother" ≠ concreteAmm.daiAddress) ∧
    getContractCodeHash concreteAmm "0xother" = none := by
  refine ⟨by decide, by decide, rfl⟩

/-- C9 (amended): the cache is populated at startup for the two known tokens
(WETH and DAI) and lookups of those return the preloaded hashes; for every
other token identifier the lookup returns nothing — no on-demand fetch is
performed. -/
theorem code_hash_cache_preloaded_only :
    ∀ (amm : AmmAddresses) (addr : String),
      (addr = amm.daiAddress → getContractCodeHash amm addr = some amm.daiCodeHash) ∧
      (addr = amm.wethAddress → addr ≠ amm.daiAddress →
        getContractCodeHash amm addr = some amm.wethCodeHash) ∧
      (addr ≠ amm.wethAddress → addr ≠ amm.daiAddress →
        getContractCodeHash amm addr = none) := by
  intro amm addr
  refine ⟨fun h1 => ?_, fun h1 h2 => ?_, fun h1 h2 => ?_⟩
  · subst h1
    have hmap : codeHashMapGet amm amm.daiAddress = some amm.daiCodeHash := by
      unfold codeHashMapGet
      rw [if_pos rfl]
    simp [getContractCodeHash, hmap]
  · subst h1
    have hmap : codeHashMapGet amm amm.wethAddress = some amm.wethCodeHash := by
      unfold codeHashMapGet
      rw [if_neg h2, if_pos rfl]
    simp [getContractCodeHash, hmap]
  · have hmap : codeHashMapGet amm addr = none := by
      unfold codeHashMapGet
      rw [if_neg h2, if_neg h1]
    simp [getContractCodeHash, hmap]

/-- Witness for C9 (amended): preloaded tokens hit the cache, an unknown token
returns nothing. -/
theorem code_hash_cache_preloaded_only_witness :
    getContractCodeHash concreteAmm "0xdai" = some "0xdaihash" ∧
    getContractCodeHash concreteAmm "0xweth" = some "0xwethhash" ∧
    getContractCodeHash concreteAmm "0xunknown" = none := by
  refine ⟨?_, ?_, ?_⟩
  · exact (code_hash_cache_preloaded_only concreteAmm "0xdai").1 rfl
  · exact (code_hash_cache_preloaded_only concreteAmm "0xweth").2.1 rfl (by decide)
  · exact (code_hash_cache_preloaded_only concreteAmm "0xunknown").2.2 (by decide) (by decide)

end GlobalSwap
